import Mathlib

/-!
Verification of the web-content fetch-and-extraction pipeline in
`lambda_function.py` (bedrock-web-crawler).

The Python module is shallowly embedded: its pure string logic
(URL extraction, URL validation, whitespace cleanup, truncation) is
translated directly; library calls (requests, gzip, BeautifulSoup)
are modelled as explicit parameters or abstract records describing
exactly the pieces of their results that the code reads.
-/

namespace WebCrawler

/-- Characters treated as whitespace by Python `str.strip` / `re \s`
(Unicode whitespace: tab through carriage return, FS..US, space, NEL,
NBSP, Ogham space, the en-quad..hair-space range, line/paragraph
separators, narrow NBSP, medium mathematical space, ideographic space). -/
def pyIsSpace (c : Char) : Bool :=
  let n := c.toNat
  (9 ≤ n && n ≤ 13) || n == 32 || (28 ≤ n && n ≤ 31) || n == 133 || n == 160 ||
  n == 5760 || (8192 ≤ n && n ≤ 8202) || n == 8232 || n == 8233 || n == 8239 ||
  n == 8287 || n == 12288

/-- Line-boundary characters of Python `str.splitlines`. -/
def isLineBoundary (c : Char) : Bool :=
  let n := c.toNat
  n == 10 || n == 11 || n == 12 || n == 13 || n == 28 || n == 29 || n == 30 ||
  n == 133 || n == 8232 || n == 8233

/-- Python `str.strip()`: drop whitespace from both ends. -/
def pyStrip (l : List Char) : List Char :=
  ((l.dropWhile pyIsSpace).reverse.dropWhile pyIsSpace).reverse

/-- Worker for `pySplitlines`: accumulates the current line (reversed)
and always emits a final chunk; a CR immediately followed by LF counts
as a single boundary. -/
def splitlinesGo : List Char → List Char → List (List Char)
  | [], acc => [acc.reverse]
  | '\r' :: '\n' :: rest, acc => acc.reverse :: splitlinesGo rest []
  | c :: rest, acc =>
    if isLineBoundary c then acc.reverse :: splitlinesGo rest []
    else splitlinesGo rest (c :: acc)

/-- Python `str.splitlines()`: empty list for the empty string, and no
terminal empty line when the text ends with a line boundary (the
worker always emits a trailing chunk, which is dropped exactly then). -/
def pySplitlines (cs : List Char) : List (List Char) :=
  match cs with
  | [] => []
  | _ =>
    if (cs.getLast?.map isLineBoundary).getD false then (splitlinesGo cs []).dropLast
    else splitlinesGo cs []

/-- Worker for `pySplitDouble`: Python `str.split("  ")`, scanning
left to right for non-overlapping double-space separators. -/
def splitDoubleGo : List Char → List Char → List (List Char)
  | ' ' :: ' ' :: rest, acc => acc.reverse :: splitDoubleGo rest []
  | c :: rest, acc => splitDoubleGo rest (c :: acc)
  | [], acc => [acc.reverse]

/-- Python `line.split("  ")`. -/
def pySplitDouble (l : List Char) : List (List Char) :=
  splitDoubleGo l []

/-- Lines 171-173 of `lambda_function.py`:
`lines = (line.strip() for line in text_content.splitlines())`,
`chunks = (phrase.strip() for line in lines for phrase in line.split("  "))`,
`clean_text = ' '.join(chunk for chunk in chunks if chunk)`. -/
def cleanText (s : String) : String :=
  let lines := (pySplitlines s.data).map pyStrip
  let chunks := (lines.map (fun line => (pySplitDouble line).map pyStrip)).flatten
  String.mk (List.intercalate [' '] (chunks.filter (fun c => !c.isEmpty)))

/-- A character allowed in the body of the URL regex
`https?://[^\s<>"{}|\\^`\[\]]+` : not whitespace and not one of the
eleven excluded punctuation characters (listed by code point). -/
def urlBodyChar (c : Char) : Bool :=
  !(pyIsSpace c) && !([60, 62, 34, 123, 125, 124, 92, 94, 96, 91, 93].contains c.toNat)

/-- The scheme part of the regex at the head of `cs`: returns the
matched literal (`https://` or `http://`) and the remaining characters. -/
def schemeSplit (cs : List Char) : Option (List Char × List Char) :=
  if cs.take 8 = "https://".data then some ("https://".data, cs.drop 8)
  else if cs.take 7 = "http://".data then some ("http://".data, cs.drop 7)
  else none

/-- The regex match anchored at the head of `cs`: the scheme literal
followed by a maximal nonempty run of allowed body characters. -/
def matchAt (cs : List Char) : Option (List Char) :=
  match schemeSplit cs with
  | none => none
  | some (p, rest) =>
    if (rest.takeWhile urlBodyChar).isEmpty then none
    else some (p ++ rest.takeWhile urlBodyChar)

/-- Left-to-right scan: the match at the leftmost position where the
regex matches (the first element of Python `re.findall`). -/
def extractList : List Char → Option (List Char)
  | [] => none
  | c :: t =>
    match matchAt (c :: t) with
    | some m => some m
    | none => extractList t

/-- `extract_url_from_text` (lines 81-86): first regex match or None. -/
def extract_url_from_text (s : String) : Option String :=
  (extractList s.data).map String.mk

/-- Specification-side description of a string matching the URL
pattern: a scheme literal followed by a nonempty run of allowed
body characters. -/
def isUrlMatch (u : List Char) : Prop :=
  ∃ p b, u = p ++ b ∧ (p = "https://".data ∨ p = "http://".data) ∧
    b ≠ [] ∧ ∀ c ∈ b, urlBodyChar c = true

/-- Characters Python `urllib.parse` accepts inside a scheme after the
initial letter. -/
def schemeChar (c : Char) : Bool :=
  c.isAlpha || c.isDigit || c == '+' || c == '-' || c == '.'

/-- Model of CPython `urllib.parse.urlsplit`, restricted to the scheme
and netloc components read by `is_valid_url`: left-strip of C0
controls and space, removal of tab/CR/LF, scheme recognition
(leading ASCII letter, scheme characters up to the first colon,
lowercased), netloc as the run after `//` up to the first of slash,
question mark or hash, and the mismatched-square-bracket ValueError. -/
def urlsplitSN (url : String) : Except Unit (String × String) :=
  let cs0 := url.data.dropWhile (fun c => c.toNat ≤ 32)
  let cs := cs0.filter (fun c => !(c == '\t' || c == '\r' || c == '\n'))
  let p :=
    match cs.findIdx? (fun c => c == ':') with
    | some i =>
      if 0 < i ∧ (cs.head?.map Char.isAlpha).getD false = true ∧
          ((cs.take i).drop 1).all schemeChar = true
      then ((cs.take i).map Char.toLower, cs.drop (i + 1))
      else (([] : List Char), cs)
    | none => (([] : List Char), cs)
  let scheme := p.1
  let rest := p.2
  if rest.take 2 = ['/', '/'] then
    let netloc := (rest.drop 2).takeWhile (fun c => !(c == '/' || c == '?' || c == '#'))
    if (netloc.any (fun c => c.toNat == 91)) ≠ (netloc.any (fun c => c.toNat == 93)) then
      Except.error ()
    else Except.ok (String.mk scheme, String.mk netloc)
  else Except.ok (String.mk scheme, "")

/-- `is_valid_url` (lines 88-94): `all([result.scheme, result.netloc])`
with any `urlparse` exception mapped to False. -/
def is_valid_url (url : String) : Bool :=
  match urlsplitSN url with
  | Except.error _ => false
  | Except.ok (scheme, netloc) => !(scheme == "") && !(netloc == "")

/-- The slice of an HTTP response that `scrape_website` reads: final
status, reason phrase, the optional numeric `Content-Length` header,
whether `Content-Encoding` equals gzip, the stream of body chunks
produced by `iter_content(chunk_size=8192)` (bytes as naturals), and
the final URL after redirects (`response.url`). -/
structure HttpResponse where
  status : Nat
  reason : String
  contentLength : Option Nat
  gzipEncoding : Bool
  chunks : List (List Nat)
  finalUrl : String

/-- Outcome of `requests.get`: a timeout exception, another
`RequestException` carrying its message, or a response object. -/
inductive NetOutcome where
  | timeout
  | requestError (msg : String)
  | response (r : HttpResponse)

/-- A found `<title>` tag as BeautifulSoup reports it: its `.string`
attribute is the single text child when there is exactly one, and
None otherwise (empty tag, nested markup). -/
structure TitleTag where
  string : Option String

/-- The slice of the parsed document (BeautifulSoup) that the code
reads: `get_text()` after decomposing script/style/nav/header/footer,
the first `<title>` tag if any, and the first
`<meta name="description">` tag if any together with its optional
`content` attribute. -/
structure SoupDoc where
  text : String
  title : Option TitleTag
  metaDescription : Option (Option String)

/-- The dictionary `scrape_website` returns: the success shape with
url, title, description, content, content_length and final_url, or
the failure shape with an error string. -/
inductive ScrapeResult where
  | ok (url title description content : String) (content_length : Nat) (final_url : String)
  | fail (error : String)
deriving DecidableEq

/-- Total byte length of a chunk list. -/
def sumLen (chunks : List (List Nat)) : Nat :=
  (chunks.map List.length).sum

/-- The streaming loop of lines 129-139: add each chunk length to the
running total, fail as soon as the total exceeds the limit (before
appending the offending chunk), otherwise append the chunk. The
second component is the number of body bytes consumed from the
iterator when the loop stops. -/
def streamLoop (maxContentSize : Nat) :
    List (List Nat) → Nat → List Nat → Except String (List Nat) × Nat
  | [], total, acc => (Except.ok acc, total)
  | c :: rest, total, acc =>
    let total' := total + c.length
    if total' > maxContentSize then
      (Except.error ("Content too large: exceeded " ++ toString maxContentSize ++ " bytes"),
       total')
    else streamLoop maxContentSize rest total' (acc ++ c)

/-- Message of the `HTTPError` raised by `raise_for_status` for a 4xx
or 5xx status. -/
def httpErrorMsg (r : HttpResponse) : String :=
  if r.status < 500 then
    toString r.status ++ " Client Error: " ++ r.reason ++ " for url: " ++ r.finalUrl
  else
    toString r.status ++ " Server Error: " ++ r.reason ++ " for url: " ++ r.finalUrl

/-- Lines 180-181: `title.string.strip() if title else "No title found"`.
When the tag exists but `.string` is None, `.strip()` raises
AttributeError, which the enclosing handler reports as a parsing
error; the error message here is the AttributeError text. -/
def titleOf (doc : SoupDoc) : Except String String :=
  match doc.title with
  | none => Except.ok "No title found"
  | some t =>
    match t.string with
    | some s => Except.ok (String.mk (pyStrip s.data))
    | none => Except.error "'NoneType' object has no attribute 'strip'"

/-- Lines 183-184: `meta_description.get('content', '') if
meta_description else ''`. -/
def descriptionOf (doc : SoupDoc) : String :=
  match doc.metaDescription with
  | none => ""
  | some attr => attr.getD ""

/-- Lines 176-177: `clean_text[:10000] + "... [content truncated]"`
when the cleaned text exceeds 10,000 characters, the cleaned text
unchanged otherwise. -/
def truncatedClean (doc : SoupDoc) : String :=
  let clean0 := cleanText doc.text
  if clean0.length > 10000 then clean0.take 10000 ++ "... [content truncated]"
  else clean0

/-- Lines 141-194 of `scrape_website`, after the streaming loop has
produced the accumulated bytes: optional gzip decompression, lossy
UTF-8 decode, parse, element removal and whitespace cleanup,
truncation at 10,000 characters with the marker, then metadata
extraction and the success dictionary. `decode`, `gunzip` and
`parse` stand for the library calls. -/
def scrapeAfterStream (decode : List Nat → String)
    (gunzip : List Nat → Except String (List Nat)) (parse : String → SoupDoc)
    (url : String) (r : HttpResponse) (bytes : List Nat) : ScrapeResult :=
  match (if r.gzipEncoding then gunzip bytes else Except.ok bytes) with
  | Except.error e => ScrapeResult.fail ("Failed to decompress gzip content: " ++ e)
  | Except.ok bytes2 =>
    match titleOf (parse (decode bytes2)) with
    | Except.error e => ScrapeResult.fail ("Parsing error: " ++ e)
    | Except.ok titleText =>
      ScrapeResult.ok url titleText (descriptionOf (parse (decode bytes2)))
        (truncatedClean (parse (decode bytes2)))
        (truncatedClean (parse (decode bytes2))).length r.finalUrl

/-- The body of `scrape_website` once a response object exists and
both the status and the declared-length checks passed: run the
streaming loop, then the post-stream pipeline. The second component
is the number of body bytes consumed. -/
def scrapeBody (maxContentSize : Nat) (decode : List Nat → String)
    (gunzip : List Nat → Except String (List Nat)) (parse : String → SoupDoc)
    (url : String) (r : HttpResponse) : ScrapeResult × Nat :=
  match streamLoop maxContentSize r.chunks 0 [] with
  | (Except.error e, n) => (ScrapeResult.fail e, n)
  | (Except.ok bytes, n) => (scrapeAfterStream decode gunzip parse url r bytes, n)

/-- `scrape_website` (lines 96-210), instrumented with the number of
body bytes consumed from the response stream: timeout and transport
failures, `raise_for_status` on 4xx/5xx, the declared
`Content-Length` check, then the streamed body pipeline. -/
def scrape_websiteInstr (maxContentSize timeoutSecs : Nat)
    (decode : List Nat → String) (gunzip : List Nat → Except String (List Nat))
    (parse : String → SoupDoc) (url : String) (net : NetOutcome) : ScrapeResult × Nat :=
  match net with
  | NetOutcome.timeout =>
    (ScrapeResult.fail ("Request timeout after " ++ toString timeoutSecs ++ " seconds"), 0)
  | NetOutcome.requestError e => (ScrapeResult.fail ("Request failed: " ++ e), 0)
  | NetOutcome.response r =>
    if 400 ≤ r.status ∧ r.status < 600 then
      (ScrapeResult.fail ("Request failed: " ++ httpErrorMsg r), 0)
    else
      match r.contentLength with
      | some n =>
        if n > maxContentSize then
          (ScrapeResult.fail ("Content too large: " ++ toString n ++ " bytes (max: " ++
            toString maxContentSize ++ ")"), 0)
        else scrapeBody maxContentSize decode gunzip parse url r
      | none => scrapeBody maxContentSize decode gunzip parse url r

/-- `scrape_website` as the caller sees it: the result dictionary. -/
def scrape_website (maxContentSize timeoutSecs : Nat)
    (decode : List Nat → String) (gunzip : List Nat → Except String (List Nat))
    (parse : String → SoupDoc) (url : String) (net : NetOutcome) : ScrapeResult :=
  (scrape_websiteInstr maxContentSize timeoutSecs decode gunzip parse url net).1

/-- The innermost text payload of the envelope. -/
structure TextBody where
  body : String
deriving DecidableEq

/-- The `responseBody` map with its single `TEXT` key. -/
structure ResponseBodyMap where
  TEXT : TextBody
deriving DecidableEq

/-- The `functionResponse` wrapper. -/
structure FunctionResponse where
  responseBody : ResponseBodyMap
deriving DecidableEq

/-- The `response` object inside the serialized body. -/
structure AgentResponse where
  actionGroup : String
  function : String
  functionResponse : FunctionResponse
deriving DecidableEq

/-- The dictionary passed to `json.dumps` as the envelope body. -/
structure LambdaBody where
  response : AgentResponse
deriving DecidableEq

/-- The envelope returned by the handler: outer status code plus body. -/
structure LambdaEnvelope where
  statusCode : Nat
  body : LambdaBody
deriving DecidableEq

/-- The text rendered by `create_success_response` (lines 216-224):
a success report, or the failure form built from the error field. -/
def successText (r : ScrapeResult) : String :=
  match r with
  | ScrapeResult.ok url title _ content n _ =>
    "Successfully scraped: " ++ title ++ "\nURL: " ++ url ++ "\nContent length: " ++
      toString n ++ " characters\n\nContent:\n" ++ content
  | ScrapeResult.fail e => "Failed to scrape website: " ++ e

/-- `create_success_response` (lines 212-244). -/
def create_success_response (r : ScrapeResult) : LambdaEnvelope :=
  ⟨200, ⟨⟨"web_scrape", "scrape_website", ⟨⟨⟨successText r⟩⟩⟩⟩⟩⟩

/-- `create_error_response` (lines 246-268). -/
def create_error_response (msg : String) : LambdaEnvelope :=
  ⟨200, ⟨⟨"web_scrape", "scrape_website", ⟨⟨⟨"Error: " ++ msg⟩⟩⟩⟩⟩⟩

/-- The `requestBody` dictionary with its two recognized keys; a
missing key is `none` and an empty-string value models any falsy
value. -/
structure RequestBody where
  url : Option String
  website_url : Option String

/-- The invocation event: `inputText` (missing modelled as the empty
string, matching `event.get('inputText', '')`) and the optional
`requestBody` dictionary (`none` models a missing or non-dict value). -/
structure Event where
  inputText : String
  requestBody : Option RequestBody

/-- Python truthiness for an optional string field: a present
non-empty string survives, anything else is discarded. -/
def truthyStr : Option String → Option String
  | some s => if s = "" then none else some s
  | none => none

/-- Line 40: `request_body.get('url') or request_body.get('website_url')`,
keeping only the first truthy value. -/
def structuredUrl (rb : RequestBody) : Option String :=
  match truthyStr rb.url with
  | some s => some s
  | none => truthyStr rb.website_url

/-- Lines 38-44: structured fields first, then the free-text scan when
the structured result is falsy and `inputText` is non-empty. -/
def resolvedUrl (e : Event) : Option String :=
  let u :=
    match e.requestBody with
    | some rb => structuredUrl rb
    | none => none
  match u with
  | some s => some s
  | none => if e.inputText = "" then none else extract_url_from_text e.inputText

/-- `lambda_handler` (lines 20-79). The scrape stage is a parameter so
that its invocation can be observed: the second component counts how
many times it was called. An `Except.error` from the stage models an
exception reaching the top-level handler. -/
def lambda_handler (scrape : String → Except String ScrapeResult) (e : Event) :
    LambdaEnvelope × Nat :=
  match resolvedUrl e with
  | none => (create_error_response "No valid URL provided. Please provide a URL to scrape.", 0)
  | some url =>
    if is_valid_url url then
      match scrape url with
      | Except.ok res => (create_success_response res, 1)
      | Except.error ex => (create_error_response ("Error scraping website: " ++ ex), 1)
    else
      (create_error_response ("Invalid URL format: " ++ url), 0)

/-- Fixture: a scrape stage that returns a failure dictionary. -/
def scrapeStub : String → Except String ScrapeResult :=
  fun _ => Except.ok (ScrapeResult.fail "stub")

/-- Fixture: a scrape stage whose failure dictionary says boom. -/
def scrapeBoom : String → Except String ScrapeResult :=
  fun _ => Except.ok (ScrapeResult.fail "boom")

/-- Fixture: decode that ignores its bytes. -/
def decodeStub : List Nat → String :=
  fun _ => ""

/-- Fixture: decode producing a short text. -/
def decodeHello : List Nat → String :=
  fun _ => "hi there"

/-- Fixture: parse whose document text is the decoded string, with no
title and no meta description. -/
def parseStub : String → SoupDoc :=
  fun s => ⟨s, none, none⟩

/-- Fixture: parse of a document whose `<title>` element exists but
has no single text child, so its `.string` is None. -/
def parseEmptyTitle : String → SoupDoc :=
  fun _ => ⟨"", some ⟨none⟩, none⟩

/-- Fixture: a plain 200 response with an empty body stream. -/
def respPlain : HttpResponse :=
  ⟨200, "OK", none, false, [], "http://f.example"⟩

/-- Fixture: a 200 response streaming five body bytes in two chunks,
with no declared length. -/
def respBig : HttpResponse :=
  ⟨200, "OK", none, false, [[1, 2, 3], [4, 5]], "http://f.example"⟩

/-- Fixture: a 200 response declaring Content-Length 50. -/
def respDeclared : HttpResponse :=
  ⟨200, "OK", some 50, false, [[1]], "http://f.example"⟩

/-- Fixture: event with no URL anywhere. -/
def eventNoUrl : Event :=
  ⟨"", none⟩

/-- Fixture: event whose structured url field fails validation. -/
def eventBadUrl : Event :=
  ⟨"", some ⟨some "not a url", none⟩⟩

/-- Fixture: event whose structured url field passes validation. -/
def eventGoodUrl : Event :=
  ⟨"", some ⟨some "http://x", none⟩⟩

/-- Fixture: request body carrying both structured fields. -/
def rbBoth : RequestBody :=
  ⟨some "https://structured.example/a", some "https://alt.example/b"⟩

/-- Fixture: event carrying both structured fields and a URL-bearing
input text. -/
def eventBoth : Event :=
  ⟨"see https://text.example/z", some rbBoth⟩

theorem sumLen_nil : sumLen [] = 0 := rfl

theorem sumLen_cons (c : List Nat) (rest : List (List Nat)) :
    sumLen (c :: rest) = c.length + sumLen rest := by
  simp [sumLen]

theorem streamLoop_ok_length (maxContentSize : Nat) :
    ∀ (chunks : List (List Nat)) (total : Nat) (acc out : List Nat) (n : Nat),
      streamLoop maxContentSize chunks total acc = (Except.ok out, n) →
      acc.length ≤ total → total ≤ maxContentSize → out.length ≤ maxContentSize := by
  intro chunks
  induction chunks with
  | nil =>
    intro total acc out n h hacc htot
    simp only [streamLoop, Prod.mk.injEq, Except.ok.injEq] at h
    obtain ⟨h1, h2⟩ := h
    subst h1
    omega
  | cons c rest ih =>
    intro total acc out n h hacc htot
    simp only [streamLoop] at h
    split at h
    · simp at h
    · next hle =>
      refine ih _ _ _ _ h ?_ (by omega)
      simp only [List.length_append]
      omega

theorem streamLoop_big (maxContentSize : Nat) :
    ∀ (chunks : List (List Nat)) (total : Nat) (acc : List Nat),
      (∀ c ∈ chunks, c.length ≤ 8192) → total ≤ maxContentSize →
      maxContentSize < total + sumLen chunks →
      (streamLoop maxContentSize chunks total acc).1 =
        Except.error ("Content too large: exceeded " ++ toString maxContentSize ++ " bytes") ∧
      (streamLoop maxContentSize chunks total acc).2 ≤ maxContentSize + 8192 := by
  intro chunks
  induction chunks with
  | nil =>
    intro total acc _ htot hbig
    rw [sumLen_nil] at hbig
    omega
  | cons c rest ih =>
    intro total acc hch htot hbig
    by_cases hgt : total + c.length > maxContentSize
    · have hc : c.length ≤ 8192 := hch c (by simp)
      refine ⟨by simp [streamLoop, if_pos hgt], ?_⟩
      simp only [streamLoop, if_pos hgt]
      omega
    · have h8 : ∀ x ∈ rest, x.length ≤ 8192 := fun x hx => hch x (by simp [hx])
      have hbig' : maxContentSize < (total + c.length) + sumLen rest := by
        rw [sumLen_cons] at hbig
        omega
      have hrec := ih (total + c.length) (acc ++ c) h8 (by omega) hbig'
      simpa only [streamLoop, if_neg hgt] using hrec

theorem streamLoop_all (maxContentSize : Nat) :
    ∀ (chunks : List (List Nat)) (total : Nat) (acc : List Nat),
      total + sumLen chunks ≤ maxContentSize →
      streamLoop maxContentSize chunks total acc =
        (Except.ok (acc ++ chunks.flatten), total + sumLen chunks) := by
  intro chunks
  induction chunks with
  | nil =>
    intro total acc h
    simp [streamLoop, sumLen_nil]
  | cons c rest ih =>
    intro total acc h
    rw [sumLen_cons] at h
    have hle : ¬ total + c.length > maxContentSize := by omega
    simp only [streamLoop, if_neg hle]
    rw [ih (total + c.length) (acc ++ c) (by omega)]
    simp [sumLen_cons, List.append_assoc, Nat.add_assoc]

theorem scrapeBody_big (maxContentSize : Nat) (decode : List Nat → String)
    (gunzip : List Nat → Except String (List Nat)) (parse : String → SoupDoc)
    (url : String) (r : HttpResponse)
    (hch : ∀ c ∈ r.chunks, c.length ≤ 8192) (hbig : maxContentSize < sumLen r.chunks) :
    (scrapeBody maxContentSize decode gunzip parse url r).1 =
      ScrapeResult.fail ("Content too large: exceeded " ++ toString maxContentSize ++ " bytes") ∧
    (scrapeBody maxContentSize decode gunzip parse url r).2 ≤ maxContentSize + 8192 := by
  obtain ⟨h1, h2⟩ := streamLoop_big maxContentSize r.chunks 0 [] hch (Nat.zero_le _) (by omega)
  cases hq : streamLoop maxContentSize r.chunks 0 [] with
  | mk a b =>
    rw [hq] at h1 h2
    simp only at h1 h2
    subst h1
    unfold scrapeBody
    rw [hq]
    exact ⟨rfl, h2⟩

theorem scrapeBody_all (maxContentSize : Nat) (decode : List Nat → String)
    (gunzip : List Nat → Except String (List Nat)) (parse : String → SoupDoc)
    (url : String) (r : HttpResponse) (hsum : sumLen r.chunks ≤ maxContentSize) :
    scrapeBody maxContentSize decode gunzip parse url r =
      (scrapeAfterStream decode gunzip parse url r r.chunks.flatten, sumLen r.chunks) := by
  unfold scrapeBody
  rw [streamLoop_all maxContentSize r.chunks 0 [] (by omega)]
  simp

theorem scrapeInstr_response_eq (maxContentSize timeoutSecs : Nat)
    (decode : List Nat → String) (gunzip : List Nat → Except String (List Nat))
    (parse : String → SoupDoc) (url : String) (r : HttpResponse)
    (hstatus : ¬(400 ≤ r.status ∧ r.status < 600))
    (hcl : ∀ n, r.contentLength = some n → n ≤ maxContentSize) :
    scrape_websiteInstr maxContentSize timeoutSecs decode gunzip parse url
        (NetOutcome.response r) =
      scrapeBody maxContentSize decode gunzip parse url r := by
  simp only [scrape_websiteInstr]
  rw [if_neg hstatus]
  cases hc : r.contentLength with
  | none => rfl
  | some n =>
    have := hcl n hc
    simp only
    rw [if_neg (by omega)]

/-- C1: when the streamed body exceeds the configured maximum (chunks
bounded by 8192 bytes, no oversized declared length, 2xx/3xx status),
`scrape_website` fails with the streaming content-too-large error after
consuming at most the maximum plus one chunk from the stream; moreover,
any accumulated buffer the loop hands onward never exceeds the maximum. -/
theorem scrape_streaming_too_large (maxContentSize timeoutSecs : Nat)
    (decode : List Nat → String) (gunzip : List Nat → Except String (List Nat))
    (parse : String → SoupDoc) (url : String) (r : HttpResponse)
    (hstatus : ¬(400 ≤ r.status ∧ r.status < 600))
    (hcl : ∀ n, r.contentLength = some n → n ≤ maxContentSize)
    (hchunk : ∀ c ∈ r.chunks, c.length ≤ 8192)
    (hbig : maxContentSize < sumLen r.chunks) :
    (scrape_websiteInstr maxContentSize timeoutSecs decode gunzip parse url
        (NetOutcome.response r)).1 =
      ScrapeResult.fail ("Content too large: exceeded " ++ toString maxContentSize ++ " bytes") ∧
    (scrape_websiteInstr maxContentSize timeoutSecs decode gunzip parse url
        (NetOutcome.response r)).2 ≤ maxContentSize + 8192 ∧
    (∀ (chunks : List (List Nat)) (out : List Nat) (n : Nat),
      streamLoop maxContentSize chunks 0 [] = (Except.ok out, n) →
      out.length ≤ maxContentSize) := by
  rw [scrapeInstr_response_eq maxContentSize timeoutSecs decode gunzip parse url r hstatus hcl]
  obtain ⟨h1, h2⟩ := scrapeBody_big maxContentSize decode gunzip parse url r hchunk hbig
  exact ⟨h1, h2, fun chunks out n h =>
    streamLoop_ok_length maxContentSize chunks 0 [] out n h (by simp) (Nat.zero_le _)⟩

/-- C1 witness: a five-byte stream against a four-byte limit. -/
theorem scrape_streaming_too_large_witness :
    (scrape_websiteInstr 4 30 decodeStub Except.ok parseStub "http://u"
        (NetOutcome.response respBig)).1 =
      ScrapeResult.fail ("Content too large: exceeded " ++ toString 4 ++ " bytes") ∧
    (scrape_websiteInstr 4 30 decodeStub Except.ok parseStub "http://u"
        (NetOutcome.response respBig)).2 ≤ 4 + 8192 ∧
    (∀ (chunks : List (List Nat)) (out : List Nat) (n : Nat),
      streamLoop 4 chunks 0 [] = (Except.ok out, n) → out.length ≤ 4) :=
  scrape_streaming_too_large 4 30 decodeStub Except.ok parseStub "http://u" respBig
    (by decide) (by intro n hn; simp [respBig] at hn) (by decide) (by decide)

/-- C5: a declared `Content-Length` strictly above the maximum makes
`scrape_website` fail with the declared-length error having consumed
zero bytes of the body stream (given a non-error HTTP status, since
`raise_for_status` runs first). -/
theorem scrape_declared_too_large (maxContentSize timeoutSecs : Nat)
    (decode : List Nat → String) (gunzip : List Nat → Except String (List Nat))
    (parse : String → SoupDoc) (url : String) (r : HttpResponse) (n : Nat)
    (hstatus : ¬(400 ≤ r.status ∧ r.status < 600))
    (hcl : r.contentLength = some n) (hbig : n > maxContentSize) :
    scrape_websiteInstr maxContentSize timeoutSecs decode gunzip parse url
        (NetOutcome.response r) =
      (ScrapeResult.fail ("Content too large: " ++ toString n ++ " bytes (max: " ++
        toString maxContentSize ++ ")"), 0) := by
  simp only [scrape_websiteInstr]
  rw [if_neg hstatus, hcl]
  simp only
  rw [if_pos hbig]

/-- C5 witness: declared length 50 against a ten-byte limit. -/
theorem scrape_declared_too_large_witness :
    scrape_websiteInstr 10 30 decodeStub Except.ok parseStub "http://u"
        (NetOutcome.response respDeclared) =
      (ScrapeResult.fail ("Content too large: " ++ toString 50 ++ " bytes (max: " ++
        toString 10 ++ ")"), 0) :=
  scrape_declared_too_large 10 30 decodeStub Except.ok parseStub "http://u" respDeclared 50
    (by decide) (by decide) (by decide)

/-- C2: on the success path (benign status, acceptable declared and
streamed size, successful decompression, a title extraction that does
not raise), the stored content is exactly the cleaned text when it has
at most 10,000 characters, and exactly its first 10,000 characters
followed by the truncation marker when it is longer. -/
theorem scrape_truncation (maxContentSize timeoutSecs : Nat)
    (decode : List Nat → String) (gunzip : List Nat → Except String (List Nat))
    (parse : String → SoupDoc) (url : String) (r : HttpResponse)
    (bs : List Nat) (titleText : String)
    (hstatus : ¬(400 ≤ r.status ∧ r.status < 600))
    (hcl : ∀ n, r.contentLength = some n → n ≤ maxContentSize)
    (hsum : sumLen r.chunks ≤ maxContentSize)
    (hbs : (if r.gzipEncoding then gunzip r.chunks.flatten else Except.ok r.chunks.flatten) =
      Except.ok bs)
    (htitle : titleOf (parse (decode bs)) = Except.ok titleText) :
    scrape_website maxContentSize timeoutSecs decode gunzip parse url
        (NetOutcome.response r) =
      ScrapeResult.ok url titleText (descriptionOf (parse (decode bs)))
        (if (cleanText (parse (decode bs)).text).length > 10000 then
          (cleanText (parse (decode bs)).text).take 10000 ++ "... [content truncated]"
        else cleanText (parse (decode bs)).text)
        (if (cleanText (parse (decode bs)).text).length > 10000 then
          (cleanText (parse (decode bs)).text).take 10000 ++ "... [content truncated]"
        else cleanText (parse (decode bs)).text).length
        r.finalUrl := by
  unfold scrape_website
  rw [scrapeInstr_response_eq maxContentSize timeoutSecs decode gunzip parse url r hstatus hcl]
  rw [scrapeBody_all maxContentSize decode gunzip parse url r hsum]
  unfold scrapeAfterStream
  rw [hbs]
  simp only [htitle]
  simp [truncatedClean]

/-- C2 witness: an empty stream whose cleaned text is short. -/
theorem scrape_truncation_witness :
    scrape_website 100 30 decodeStub Except.ok parseStub "http://u"
        (NetOutcome.response respPlain) =
      ScrapeResult.ok "http://u" "No title found" (descriptionOf (parseStub (decodeStub [])))
        (if (cleanText (parseStub (decodeStub [])).text).length > 10000 then
          (cleanText (parseStub (decodeStub [])).text).take 10000 ++ "... [content truncated]"
        else cleanText (parseStub (decodeStub [])).text)
        (if (cleanText (parseStub (decodeStub [])).text).length > 10000 then
          (cleanText (parseStub (decodeStub [])).text).take 10000 ++ "... [content truncated]"
        else cleanText (parseStub (decodeStub [])).text).length
        "http://f.example" :=
  scrape_truncation 100 30 decodeStub Except.ok parseStub "http://u" respPlain [] "No title found"
    (by decide) (by intro n hn; simp [respPlain] at hn) (by decide) (by rfl) (by rfl)

theorem scrapeAfterStream_ok_length (decode : List Nat → String)
    (gunzip : List Nat → Except String (List Nat)) (parse : String → SoupDoc)
    (url : String) (r : HttpResponse) (bytes : List Nat)
    (u ti d c : String) (n : Nat) (f : String)
    (h : scrapeAfterStream decode gunzip parse url r bytes =
      ScrapeResult.ok u ti d c n f) : n = c.length := by
  unfold scrapeAfterStream at h
  split at h
  · simp at h
  · split at h
    · simp at h
    · injection h with h1 h2 h3 h4 h5 h6
      rw [← h4, ← h5]

theorem scrapeBody_ok_length (maxContentSize : Nat) (decode : List Nat → String)
    (gunzip : List Nat → Except String (List Nat)) (parse : String → SoupDoc)
    (url : String) (r : HttpResponse) (u ti d c : String) (n : Nat) (f : String)
    (h : (scrapeBody maxContentSize decode gunzip parse url r).1 =
      ScrapeResult.ok u ti d c n f) : n = c.length := by
  unfold scrapeBody at h
  cases hq : streamLoop maxContentSize r.chunks 0 [] with
  | mk a b =>
    rw [hq] at h
    cases a with
    | error e => simp at h
    | ok bytes => exact scrapeAfterStream_ok_length decode gunzip parse url r bytes u ti d c n f h

/-- C9: every success dictionary `scrape_website` returns reports a
content_length equal to the character length of the content it
delivers (the truncation marker included when truncation occurred). -/
theorem scrape_reported_length (maxContentSize timeoutSecs : Nat)
    (decode : List Nat → String) (gunzip : List Nat → Except String (List Nat))
    (parse : String → SoupDoc) (url : String) (net : NetOutcome)
    (u ti d c : String) (n : Nat) (f : String)
    (h : scrape_website maxContentSize timeoutSecs decode gunzip parse url net =
      ScrapeResult.ok u ti d c n f) : n = c.length := by
  unfold scrape_website scrape_websiteInstr at h
  cases net with
  | timeout => simp at h
  | requestError e => simp at h
  | response r =>
    simp only at h
    split at h
    · simp at h
    · split at h
      · split at h
        · simp at h
        · exact scrapeBody_ok_length maxContentSize decode gunzip parse url r u ti d c n f h
      · exact scrapeBody_ok_length maxContentSize decode gunzip parse url r u ti d c n f h

/-- C9 witness: a concrete success run whose reported length matches
the delivered content. -/
theorem scrape_reported_length_witness :
    scrape_website 100 30 decodeHello Except.ok parseStub "http://u"
        (NetOutcome.response respPlain) =
      ScrapeResult.ok "http://u" "No title found" "" "hi there" 8 "http://f.example" ∧
    (8 : Nat) = ("hi there" : String).length :=
  ⟨by decide,
    scrape_reported_length 100 30 decodeHello Except.ok parseStub "http://u"
      (NetOutcome.response respPlain) "http://u" "No title found" "" "hi there" 8
      "http://f.example" (by decide)⟩

/-- C4: contrary to the claim that metadata extraction never fails, a
document whose first title element exists but has no single text child
(for example `<html><head><title></title></head><body></body></html>`)
makes `title.string` None, `.strip()` raises AttributeError, and
`scrape_website` returns a parsing-error failure instead of a sentinel. -/
theorem title_crash_on_empty_title :
    scrape_website 1048576 30 decodeStub Except.ok parseEmptyTitle "http://example.com"
        (NetOutcome.response respPlain) =
      ScrapeResult.fail "Parsing error: 'NoneType' object has no attribute 'strip'" := by
  decide

/-- C3: whatever the outcome (scrape success, scrape failure, resolver
failure, or an exception reaching the top-level handler), the envelope
has outer status code 200 and the fixed actionGroup and function
identifiers around its TEXT body. -/
theorem envelope_fixed_shape (scrape : String → Except String ScrapeResult) (e : Event) :
    ((lambda_handler scrape e).1).statusCode = 200 ∧
    ((lambda_handler scrape e).1).body.response.actionGroup = "web_scrape" ∧
    ((lambda_handler scrape e).1).body.response.function = "scrape_website" := by
  unfold lambda_handler
  cases resolvedUrl e with
  | none => exact ⟨rfl, rfl, rfl⟩
  | some url =>
    cases hv : is_valid_url url with
    | true =>
      simp only [hv, if_true]
      cases scrape url with
      | ok res => exact ⟨rfl, rfl, rfl⟩
      | error ex => exact ⟨rfl, rfl, rfl⟩
    | false =>
      simp only [hv]
      exact ⟨rfl, rfl, rfl⟩

/-- C6 counterexample: for the resolver-stage failure with no URL, the
embedded text body is not the resolver message itself (the builder
prefixes it with Error and a colon). -/
theorem resolver_message_not_verbatim :
    ((lambda_handler scrapeStub eventNoUrl).1).body.response.functionResponse.responseBody.TEXT.body ≠
      "No valid URL provided. Please provide a URL to scrape." := by
  decide

/-- C6 amended: failed scrape results render exactly as the failure
form built from the error; resolver-stage failures render as Error, a
colon and a space, followed by the resolver message. -/
theorem envelope_failure_texts (scrape : String → Except String ScrapeResult) (e : Event)
    (url err : String) :
    (resolvedUrl e = some url → is_valid_url url = true →
      scrape url = Except.ok (ScrapeResult.fail err) →
      ((lambda_handler scrape e).1).body.response.functionResponse.responseBody.TEXT.body =
        "Failed to scrape website: " ++ err) ∧
    (resolvedUrl e = none →
      ((lambda_handler scrape e).1).body.response.functionResponse.responseBody.TEXT.body =
        "Error: No valid URL provided. Please provide a URL to scrape.") ∧
    (resolvedUrl e = some url → is_valid_url url = false →
      ((lambda_handler scrape e).1).body.response.functionResponse.responseBody.TEXT.body =
        "Error: Invalid URL format: " ++ url) := by
  refine ⟨?_, ?_, ?_⟩
  · intro hres hval hscr
    unfold lambda_handler
    rw [hres]
    simp [hval, hscr, create_success_response, successText]
  · intro hres
    unfold lambda_handler
    rw [hres]
    rfl
  · intro hres hval
    unfold lambda_handler
    rw [hres]
    simp [hval, create_error_response]
    rw [← String.append_assoc]
    rfl

/-- C6 witness: the three failure renderings at concrete inputs. -/
theorem envelope_failure_texts_witness :
    ((lambda_handler scrapeBoom eventGoodUrl).1).body.response.functionResponse.responseBody.TEXT.body =
      "Failed to scrape website: " ++ "boom" ∧
    ((lambda_handler scrapeStub eventNoUrl).1).body.response.functionResponse.responseBody.TEXT.body =
      "Error: No valid URL provided. Please provide a URL to scrape." ∧
    ((lambda_handler scrapeStub eventBadUrl).1).body.response.functionResponse.responseBody.TEXT.body =
      "Error: Invalid URL format: " ++ "not a url" :=
  ⟨(envelope_failure_texts scrapeBoom eventGoodUrl "http://x" "boom").1 (by rfl) (by decide)
      (by rfl),
   (envelope_failure_texts scrapeStub eventNoUrl "x" "y").2.1 (by rfl),
   (envelope_failure_texts scrapeStub eventBadUrl "not a url" "z").2.2 (by rfl) (by decide)⟩

/-- C7: when the resolved candidate URL fails validation, the handler
returns the invalid-format error envelope citing the offending string
and the scrape stage is invoked zero times. -/
theorem invalid_url_short_circuit (scrape : String → Except String ScrapeResult)
    (e : Event) (url : String) (hres : resolvedUrl e = some url)
    (hval : is_valid_url url = false) :
    lambda_handler scrape e = (create_error_response ("Invalid URL format: " ++ url), 0) := by
  unfold lambda_handler
  rw [hres]
  simp [hval]

/-- C7 witness: a structured candidate that fails validation. -/
theorem invalid_url_short_circuit_witness :
    resolvedUrl eventBadUrl = some "not a url" ∧
    is_valid_url "not a url" = false ∧
    lambda_handler scrapeStub eventBadUrl =
      (create_error_response ("Invalid URL format: " ++ "not a url"), 0) :=
  ⟨by rfl, by decide,
   invalid_url_short_circuit scrapeStub eventBadUrl "not a url" (by rfl) (by decide)⟩

/-- C10: resolution precedence inside a structured request body: a
non-empty url field wins outright; website_url is consulted only when
url is absent or empty; the free-text scan of inputText runs only when
both structured fields are absent or empty. -/
theorem url_precedence (e : Event) (rb : RequestBody) (h : e.requestBody = some rb) :
    (∀ u, rb.url = some u → u ≠ "" → resolvedUrl e = some u) ∧
    ((rb.url = none ∨ rb.url = some "") →
      (∀ w, rb.website_url = some w → w ≠ "" → resolvedUrl e = some w) ∧
      ((rb.website_url = none ∨ rb.website_url = some "") →
        resolvedUrl e =
          if e.inputText = "" then none else extract_url_from_text e.inputText)) := by
  refine ⟨?_, ?_⟩
  · intro u hu hne
    simp [resolvedUrl, h, structuredUrl, truthyStr, hu, hne]
  · intro h0
    refine ⟨?_, ?_⟩
    · intro w hw hne
      rcases h0 with h0 | h0 <;>
        simp [resolvedUrl, h, structuredUrl, truthyStr, h0, hw, hne]
    · intro h1
      rcases h0 with h0 | h0 <;> rcases h1 with h1 | h1 <;>
        simp [resolvedUrl, h, structuredUrl, truthyStr, h0, h1]

/-- C10 witness: with both structured fields and a URL-bearing input
text present, the url field wins. -/
theorem url_precedence_witness :
    eventBoth.requestBody = some rbBoth ∧
    rbBoth.url = some "https://structured.example/a" ∧
    resolvedUrl eventBoth = some "https://structured.example/a" :=
  ⟨rfl, rfl,
   (url_precedence eventBoth rbBoth rfl).1 "https://structured.example/a" rfl (by decide)⟩

theorem matchAt_nil : matchAt [] = none := by decide

theorem matchAt_isUrlMatch (cs m : List Char) (h : matchAt cs = some m) : isUrlMatch m := by
  unfold matchAt at h
  split at h
  · exact absurd h (by simp)
  · next p rest heq =>
    split at h
    · exact absurd h (by simp)
    · next hb =>
      injection h with hm
      subst hm
      refine ⟨p, rest.takeWhile urlBodyChar, rfl, ?_, ?_, ?_⟩
      · unfold schemeSplit at heq
        split at heq
        · injection heq with h2
          simp only [Prod.mk.injEq] at h2
          exact Or.inl h2.1.symm
        · split at heq
          · injection heq with h2
            simp only [Prod.mk.injEq] at h2
            exact Or.inr h2.1.symm
          · exact absurd heq (by simp)
      · intro hnil
        rw [hnil] at hb
        simp at hb
      · intro c hc
        exact List.mem_takeWhile_imp hc

theorem extractList_some_spec : ∀ (cs : List Char) (m : List Char),
    extractList cs = some m →
    ∃ i, matchAt (cs.drop i) = some m ∧ ∀ j, j < i → matchAt (cs.drop j) = none := by
  intro cs
  induction cs with
  | nil => intro m h; simp [extractList] at h
  | cons c t ih =>
    intro m h
    unfold extractList at h
    cases hm : matchAt (c :: t) with
    | some m' =>
      rw [hm] at h
      simp only at h
      refine ⟨0, ?_, ?_⟩
      · rw [List.drop_zero, hm, h]
      · intro j hj
        omega
    | none =>
      rw [hm] at h
      simp only at h
      obtain ⟨i, h1, h2⟩ := ih m h
      refine ⟨i + 1, ?_, ?_⟩
      · simpa using h1
      · intro j hj
        cases j with
        | zero => simpa using hm
        | succ j' => simpa using h2 j' (by omega)

theorem extractList_none_spec : ∀ (cs : List Char),
    extractList cs = none → ∀ i, matchAt (cs.drop i) = none := by
  intro cs
  induction cs with
  | nil =>
    intro _ i
    rw [List.drop_nil]
    exact matchAt_nil
  | cons c t ih =>
    intro h i
    unfold extractList at h
    cases hm : matchAt (c :: t) with
    | some m' =>
      rw [hm] at h
      simp at h
    | none =>
      rw [hm] at h
      simp only at h
      cases i with
      | zero => simpa using hm
      | succ i' => simpa using ih h i'

/-- C8: `extract_url_from_text` returns the regex match at the
leftmost position where the pattern (an http or https scheme followed
by a maximal nonempty run of characters excluding whitespace, angle
brackets, double quote, braces, pipe, backslash, caret, backtick and
square brackets) matches, and returns nothing exactly when no position
matches. -/
theorem extract_first_url (s : String) :
    (∀ u, extract_url_from_text s = some u →
      isUrlMatch u.data ∧
      ∃ i, matchAt (s.data.drop i) = some u.data ∧
        ∀ j, j < i → matchAt (s.data.drop j) = none) ∧
    (extract_url_from_text s = none → ∀ i, matchAt (s.data.drop i) = none) := by
  constructor
  · intro u hu
    unfold extract_url_from_text at hu
    cases he : extractList s.data with
    | none => rw [he] at hu; simp at hu
    | some m =>
      rw [he] at hu
      simp only [Option.map_some', Option.some.injEq] at hu
      subst hu
      obtain ⟨i, h1, h2⟩ := extractList_some_spec s.data m he
      exact ⟨matchAt_isUrlMatch _ _ h1, ⟨i, h1, h2⟩⟩
  · intro hn i
    unfold extract_url_from_text at hn
    cases he : extractList s.data with
    | some m => rw [he] at hn; simp at hn
    | none => exact extractList_none_spec s.data he i

/-- C8 witness: extraction from prose around a single URL. -/
theorem extract_first_url_witness :
    extract_url_from_text "go to http://a.com now" = some "http://a.com" ∧
    (isUrlMatch ("http://a.com").data ∧
      ∃ i, matchAt (("go to http://a.com now").data.drop i) = some ("http://a.com").data ∧
        ∀ j, j < i → matchAt (("go to http://a.com now").data.drop j) = none) :=
  ⟨by decide, (extract_first_url "go to http://a.com now").1 "http://a.com" (by decide)⟩

end WebCrawler
